import Mathlib

/-!
Verification of the strategy-builder signal composition logic.

The definitions below are a shallow embedding of the client-side builder
logic in `src/web/src/app/dashboard/systems/new/page.tsx`, the signal
matrix in `src/web/src/components/builder/score-gauge.tsx`, and the
`StrategySubscription` Solidity contract. Machine reals (JS numbers,
token amounts) are modelled as rationals / naturals; comparisons in the
source are exact, so the embedding is faithful on the rational inputs
the claims quantify over.
-/

namespace StrategyBuilder

/-- Valuation tier keys, as in `VAL_ROWS` of score-gauge.tsx. -/
inductive ValTier
  | strongest_buy
  | buy
  | hold
  | sell
  | strongest_sell
deriving DecidableEq, Repr

/-- Trend tier keys, as in `TREND_COLS` of score-gauge.tsx. -/
inductive TrendTier
  | uptrend
  | neutral
  | downtrend
deriving DecidableEq, Repr

/-- The fixed allocation lookup table `DEFAULT_ALLOC` from
score-gauge.tsx, keyed by (valuation tier, trend tier). -/
def DEFAULT_ALLOC : ValTier → TrendTier → ℚ
  | .strongest_buy, .uptrend => 1
  | .strongest_buy, .neutral => 85/100
  | .strongest_buy, .downtrend => 70/100
  | .buy, .uptrend => 85/100
  | .buy, .neutral => 70/100
  | .buy, .downtrend => 55/100
  | .hold, .uptrend => 50/100
  | .hold, .neutral => 30/100
  | .hold, .downtrend => 15/100
  | .sell, .uptrend => 35/100
  | .sell, .neutral => 20/100
  | .sell, .downtrend => 5/100
  | .strongest_sell, .uptrend => 15/100
  | .strongest_sell, .neutral => 5/100
  | .strongest_sell, .downtrend => 0

/-- The canonical 5x3 allocation table transcribed from the
specification document (section 4.5), used only to compare against the
code's `DEFAULT_ALLOC`. -/
def specCanonicalAlloc : ValTier → TrendTier → ℚ
  | .strongest_buy, .uptrend => 100/100
  | .strongest_buy, .neutral => 85/100
  | .strongest_buy, .downtrend => 70/100
  | .buy, .uptrend => 85/100
  | .buy, .neutral => 70/100
  | .buy, .downtrend => 55/100
  | .hold, .uptrend => 50/100
  | .hold, .neutral => 30/100
  | .hold, .downtrend => 15/100
  | .sell, .uptrend => 35/100
  | .sell, .neutral => 20/100
  | .sell, .downtrend => 5/100
  | .strongest_sell, .uptrend => 15/100
  | .strongest_sell, .neutral => 5/100
  | .strongest_sell, .downtrend => 0/100

/-- The valuation tier derived from a composite z-score, as computed by
the `valuationSignal` memo of the valuation builder page. -/
def valuationSignal (z : ℚ) : ValTier :=
  if z ≤ -2 then .strongest_buy
  else if z ≤ -1 then .buy
  else if z ≥ 2 then .strongest_sell
  else if z ≥ 1 then .sell
  else .hold

/-- A valuation (SDCA) indicator, restricted to the fields the builder's
derived computations read. -/
structure ValIndicator where
  name : String
  category : String
  z_score : ℚ
deriving DecidableEq, Repr

/-- The composite valuation z-score of the valuation builder page:
`indicators.reduce((s, i) => s + i.z_score, 0) / indicators.length`,
returning 0 when the indicator list is empty. -/
def compositeZScore (indicators : List ValIndicator) : ℚ :=
  if indicators.length = 0 then 0
  else (indicators.map fun i => i.z_score).sum / indicators.length

/-- Trend (LTPI) indicator categories. -/
inductive TrendCategory
  | technical_btc
  | on_chain
deriving DecidableEq, Repr

/-- A trend (LTPI) indicator, restricted to the fields the builder's
derived computations read. -/
structure TrendIndicator where
  category : TrendCategory
  score : ℤ
deriving DecidableEq, Repr

/-- The trend builder's `compositeScore` memo:
`indicators.reduce((s, i) => s + i.score, 0)`. -/
def compositeScore (indicators : List TrendIndicator) : ℤ :=
  (indicators.map fun i => i.score).sum

/-- The trend builder's `trendRatio` memo: `compositeScore /
indicators.length` when the list is non-empty, else 0. -/
def trendRatio (indicators : List TrendIndicator) : ℚ :=
  if indicators.length > 0 then (compositeScore indicators : ℚ) / indicators.length
  else 0

/-- The trend tier derived from the trend ratio, as computed by the
`trendSignal` memo of the trend builder page. -/
def trendSignal (r : ℚ) : TrendTier :=
  if r > 1/5 then .uptrend
  else if r < -(1/5) then .downtrend
  else .neutral

/-- The direction of an ISP point. -/
inductive Direction
  | long
  | short
deriving DecidableEq, Repr

/-- An ISP point. Dates are modelled as natural-number timestamps: the
page dedups on string equality of the date and sorts by the timestamp
obtained from the date, which agree on the canonical date keys used. -/
structure ISPPoint where
  date : ℕ
  direction : Direction
deriving DecidableEq, Repr

/-- The loop body of the `ispTradeCount` memo: counts adjacent pairs of
points with differing direction. -/
def directionChanges : List ISPPoint → ℕ
  | [] => 0
  | [_] => 0
  | a :: b :: rest =>
    (if a.direction ≠ b.direction then 1 else 0) + directionChanges (b :: rest)

/-- The trend builder's `ispTradeCount` memo: 0 for fewer than 2 points,
otherwise the number of adjacent direction changes. -/
def ispTradeCount (pts : List ISPPoint) : ℕ :=
  if pts.length < 2 then 0 else directionChanges pts

/-- The ISP chart click handler's state update: drop any point at the
clicked date, append the new point, and re-sort ascending by date. -/
def handleChartClick (prev : List ISPPoint) (date : ℕ) (dir : Direction) :
    List ISPPoint :=
  let filtered := prev.filter fun p => decide (p.date ≠ date)
  List.insertionSort (fun a b => a.date ≤ b.date) (filtered ++ [⟨date, dir⟩])

/-- ISP point lists with pairwise distinct dates in ascending order. -/
def SortedByDate (l : List ISPPoint) : Prop :=
  l.Pairwise fun a b => a.date < b.date

/-- A validation issue returned by the backend validation API, reduced to
the fields relevant here. -/
structure ValidationIssue where
  rule : String
  message : String
deriving DecidableEq, Repr

/-- The valuation builder page's `isValid`:
`validationErrors.length === 0 && indicators.length >= 15`. -/
def valuationIsValid (validationErrors : List ValidationIssue)
    (indicators : List ValIndicator) : Bool :=
  decide (validationErrors.length = 0) && decide (indicators.length ≥ 15)

/-- The trend builder page's `isValid`: `validationErrors.length === 0 &&
techBtc.length === 12 && onChain.length >= 4`, where `techBtc` and
`onChain` filter the indicators by category. -/
def trendIsValid (validationErrors : List ValidationIssue)
    (indicators : List TrendIndicator) : Bool :=
  decide (validationErrors.length = 0) &&
    decide ((indicators.filter fun i =>
      decide (i.category = TrendCategory.technical_btc)).length = 12) &&
    decide ((indicators.filter fun i =>
      decide (i.category = TrendCategory.on_chain)).length ≥ 4)

/-- Per-user subscription state of the StrategySubscription contract.
Timestamps and the uint8 tier are modelled as naturals. -/
structure Subscription where
  tier : ℕ
  paidUntil : ℕ
  lastPayment : ℕ
deriving DecidableEq, Repr

/-- The contract's `cancel`: requires `tier > 0`, then sets the caller's
tier to 0 leaving `paidUntil` and `lastPayment` unchanged. -/
def cancel (sub : Subscription) : Option Subscription :=
  if sub.tier > 0 then some { sub with tier := 0 } else none

/-- The contract's `isActive` view: tier 0 (Explorer) is always active,
otherwise active while `block.timestamp <= paidUntil`. -/
def isActive (sub : Subscription) (timestamp : ℕ) : Bool :=
  if sub.tier = 0 then true else decide (timestamp ≤ sub.paidUntil)

/-- The contract's `getUserTier` view: a paid tier past `paidUntil` reads
as 0 (expired to Explorer), otherwise the stored tier. -/
def getUserTier (sub : Subscription) (timestamp : ℕ) : ℕ :=
  if sub.tier > 0 ∧ timestamp > sub.paidUntil then 0 else sub.tier

end StrategyBuilder

namespace StrategyBuilder

/-- C1: the code's `DEFAULT_ALLOC` table agrees with the spec's canonical
5x3 table on all 15 (valuation tier, trend tier) pairs; in particular
(hold, neutral) resolves to 0.30 and (strongest_buy, uptrend) to 1.00. -/
theorem C1_signal_matrix_matches_spec :
    (∀ v : ValTier, ∀ t : TrendTier, DEFAULT_ALLOC v t = specCanonicalAlloc v t) ∧
    DEFAULT_ALLOC .hold .neutral = 30/100 ∧
    DEFAULT_ALLOC .strongest_buy .uptrend = 1 := by
  refine ⟨fun v t => ?_, rfl, by norm_num [DEFAULT_ALLOC]⟩
  cases v <;> cases t <;> norm_num [DEFAULT_ALLOC, specCanonicalAlloc]

/-- C2: for every fixed trend tier the allocation is non-increasing as the
valuation tier worsens down the chain strongest_buy, buy, hold, sell,
strongest_sell; and for every fixed valuation tier it is non-increasing
as the trend tier worsens down the chain uptrend, neutral, downtrend. -/
theorem C2_signal_matrix_monotone :
    (∀ t : TrendTier,
      DEFAULT_ALLOC .buy t ≤ DEFAULT_ALLOC .strongest_buy t ∧
      DEFAULT_ALLOC .hold t ≤ DEFAULT_ALLOC .buy t ∧
      DEFAULT_ALLOC .sell t ≤ DEFAULT_ALLOC .hold t ∧
      DEFAULT_ALLOC .strongest_sell t ≤ DEFAULT_ALLOC .sell t) ∧
    (∀ v : ValTier,
      DEFAULT_ALLOC v .neutral ≤ DEFAULT_ALLOC v .uptrend ∧
      DEFAULT_ALLOC v .downtrend ≤ DEFAULT_ALLOC v .neutral) := by
  constructor
  · intro t; cases t <;> refine ⟨by norm_num [DEFAULT_ALLOC], by norm_num [DEFAULT_ALLOC],
      by norm_num [DEFAULT_ALLOC], by norm_num [DEFAULT_ALLOC]⟩
  · intro v; cases v <;> exact ⟨by norm_num [DEFAULT_ALLOC], by norm_num [DEFAULT_ALLOC]⟩

theorem foldr_min_le_of_mem (b : ℚ) (l : List ℚ) :
    ∀ x ∈ l, l.foldr min b ≤ x := by
  induction l with
  | nil => intro x hx; cases hx
  | cons a t ih =>
    intro x hx
    rcases List.mem_cons.mp hx with h | h
    · simpa [h] using min_le_left a (t.foldr min b)
    · exact le_trans (min_le_right _ _) (ih x h)

theorem le_foldr_max_of_mem (b : ℚ) (l : List ℚ) :
    ∀ x ∈ l, x ≤ l.foldr max b := by
  induction l with
  | nil => intro x hx; cases hx
  | cons a t ih =>
    intro x hx
    rcases List.mem_cons.mp hx with h | h
    · simpa [h] using le_max_left a (t.foldr max b)
    · exact le_trans (ih x h) (le_max_right _ _)

theorem le_sum_div_length (m : ℚ) (l : List ℚ) (h0 : l ≠ [])
    (h : ∀ x ∈ l, m ≤ x) : m ≤ l.sum / l.length := by
  have hlen : 0 < (l.length : ℚ) := by exact_mod_cast List.length_pos.mpr h0
  rw [le_div_iff hlen]
  have hs := List.card_nsmul_le_sum l m h
  calc m * l.length = l.length • m := by rw [nsmul_eq_mul]; ring
    _ ≤ l.sum := hs

theorem sum_div_length_le (m : ℚ) (l : List ℚ) (h0 : l ≠ [])
    (h : ∀ x ∈ l, x ≤ m) : l.sum / l.length ≤ m := by
  have hlen : 0 < (l.length : ℚ) := by exact_mod_cast List.length_pos.mpr h0
  rw [div_le_iff hlen]
  have hs := List.sum_le_card_nsmul l m h
  calc l.sum ≤ l.length • m := hs
    _ = m * l.length := by rw [nsmul_eq_mul]; ring

theorem valuationSignal_eq_strongest_buy_iff (z : ℚ) :
    valuationSignal z = .strongest_buy ↔ z ≤ -2 := by
  unfold valuationSignal
  split_ifs <;> simp_all <;> first | (constructor <;> linarith) | (intros; linarith)

theorem valuationSignal_eq_buy_iff (z : ℚ) :
    valuationSignal z = .buy ↔ -2 < z ∧ z ≤ -1 := by
  unfold valuationSignal
  split_ifs <;> simp_all <;> first | (constructor <;> linarith) | (intros; linarith)

theorem valuationSignal_eq_hold_iff (z : ℚ) :
    valuationSignal z = .hold ↔ -1 < z ∧ z < 1 := by
  unfold valuationSignal
  split_ifs <;> simp_all <;> first | (constructor <;> linarith) | (intros; linarith)

theorem valuationSignal_eq_sell_iff (z : ℚ) :
    valuationSignal z = .sell ↔ 1 ≤ z ∧ z < 2 := by
  unfold valuationSignal
  split_ifs <;> simp_all <;> first | (constructor <;> linarith) | (intros; linarith)

theorem valuationSignal_eq_strongest_sell_iff (z : ℚ) :
    valuationSignal z = .strongest_sell ↔ 2 ≤ z := by
  unfold valuationSignal
  split_ifs <;> simp_all <;> first | (constructor <;> linarith) | (intros; linarith)

/-- C3: the valuation tier produced by `valuationSignal` follows the
spec's thresholds with the stated boundary inclusions: strongest_buy iff
z ≤ -2, buy iff -2 < z ≤ -1, hold iff -1 < z < 1, sell iff 1 ≤ z < 2,
strongest_sell iff z ≥ 2. -/
theorem C3_valuation_tier_thresholds (z : ℚ) :
    (valuationSignal z = .strongest_buy ↔ z ≤ -2) ∧
    (valuationSignal z = .buy ↔ -2 < z ∧ z ≤ -1) ∧
    (valuationSignal z = .hold ↔ -1 < z ∧ z < 1) ∧
    (valuationSignal z = .sell ↔ 1 ≤ z ∧ z < 2) ∧
    (valuationSignal z = .strongest_sell ↔ 2 ≤ z) :=
  ⟨valuationSignal_eq_strongest_buy_iff z, valuationSignal_eq_buy_iff z,
   valuationSignal_eq_hold_iff z, valuationSignal_eq_sell_iff z,
   valuationSignal_eq_strongest_sell_iff z⟩

/-- C4: on a non-empty indicator list the composite valuation score is the
arithmetic mean of the z_score values, and it lies between the minimum
and the maximum of those z_scores. -/
theorem C4_composite_is_mean_within_bounds (i0 : ValIndicator) (rest : List ValIndicator) :
    compositeZScore (i0 :: rest) =
      ((i0 :: rest).map fun i => i.z_score).sum / (((i0 :: rest).length : ℚ)) ∧
    ((i0 :: rest).map fun i => i.z_score).foldr min i0.z_score ≤ compositeZScore (i0 :: rest) ∧
    compositeZScore (i0 :: rest) ≤ ((i0 :: rest).map fun i => i.z_score).foldr max i0.z_score := by
  have hcond : ¬((i0 :: rest).length = 0) := by simp
  have hmean : compositeZScore (i0 :: rest) =
      ((i0 :: rest).map fun i => i.z_score).sum / (((i0 :: rest).length : ℚ)) := by
    unfold compositeZScore
    rw [if_neg hcond]
  have hne : ((i0 :: rest).map fun i => i.z_score) ≠ [] := by simp
  refine ⟨hmean, ?_, ?_⟩
  · have hmem := foldr_min_le_of_mem i0.z_score ((i0 :: rest).map fun i => i.z_score)
    have h := le_sum_div_length _ _ hne hmem
    rw [List.length_map] at h
    rw [hmean]
    exact h
  · have hmem := le_foldr_max_of_mem i0.z_score ((i0 :: rest).map fun i => i.z_score)
    have h := sum_div_length_le _ _ hne hmem
    rw [List.length_map] at h
    rw [hmean]
    exact h

theorem trendSignal_eq_iff (r : ℚ) :
    (trendSignal r = .uptrend ↔ 1/5 < r) ∧
    (trendSignal r = .downtrend ↔ r < -(1/5)) ∧
    (trendSignal r = .neutral ↔ -(1/5) ≤ r ∧ r ≤ 1/5) := by
  unfold trendSignal
  split_ifs <;> simp_all <;> first | (constructor <;> linarith) | (intros; linarith)

theorem score_sum_bounds (l : List ℤ)
    (h : ∀ s ∈ l, s = -1 ∨ s = 0 ∨ s = 1) :
    -(l.length : ℤ) ≤ l.sum ∧ l.sum ≤ (l.length : ℤ) := by
  constructor
  · have hs := List.card_nsmul_le_sum l (-1)
      (fun x hx => by rcases h x hx with h1 | h1 | h1 <;> omega)
    simpa [nsmul_eq_mul, mul_neg_one] using hs
  · have hs := List.sum_le_card_nsmul l 1
      (fun x hx => by rcases h x hx with h1 | h1 | h1 <;> omega)
    simpa [nsmul_eq_mul, mul_one] using hs

theorem trendRatio_scenario_eq :
    trendRatio (List.replicate 12 ⟨.technical_btc, 1⟩ ++ List.replicate 4 ⟨.on_chain, -1⟩)
      = 1/2 := by
  have hsum : compositeScore
      (List.replicate 12 ⟨.technical_btc, 1⟩ ++ List.replicate 4 ⟨.on_chain, -1⟩) = 8 := by
    unfold compositeScore
    simp [List.map_append, List.map_replicate, List.sum_append, List.sum_replicate]
  have hlen : (List.replicate 12 (⟨.technical_btc, 1⟩ : TrendIndicator)
      ++ List.replicate 4 (⟨.on_chain, -1⟩ : TrendIndicator)).length = 16 := by simp
  unfold trendRatio
  rw [hsum, hlen]
  norm_num

theorem trendSignal_half_uptrend : trendSignal (1/2) = .uptrend := by
  have h : (1 : ℚ)/5 < 1/2 := by norm_num
  unfold trendSignal
  rw [if_pos h]

/-- C5: on a non-empty trend indicator list with all scores in
\x7b-1, 0, +1\x7d the trend ratio is the score sum divided by the count and
lies in [-1, 1]; the trend tier is uptrend exactly when the ratio exceeds
1/5, downtrend exactly when it is below -1/5, neutral otherwise; and 12
indicators scored +1 together with 4 scored -1 give ratio 1/2, which is
the uptrend tier. -/
theorem C5_trend_ratio_and_tier (i0 : TrendIndicator) (rest : List TrendIndicator)
    (hscores : ∀ i ∈ i0 :: rest, i.score = -1 ∨ i.score = 0 ∨ i.score = 1) :
    trendRatio (i0 :: rest) = (compositeScore (i0 :: rest) : ℚ) / ((i0 :: rest).length : ℚ) ∧
    (-1 ≤ trendRatio (i0 :: rest) ∧ trendRatio (i0 :: rest) ≤ 1) ∧
    (trendSignal (trendRatio (i0 :: rest)) = .uptrend ↔ 1/5 < trendRatio (i0 :: rest)) ∧
    (trendSignal (trendRatio (i0 :: rest)) = .downtrend ↔ trendRatio (i0 :: rest) < -(1/5)) ∧
    (trendSignal (trendRatio (i0 :: rest)) = .neutral ↔
      -(1/5) ≤ trendRatio (i0 :: rest) ∧ trendRatio (i0 :: rest) ≤ 1/5) ∧
    trendRatio (List.replicate 12 ⟨.technical_btc, 1⟩ ++ List.replicate 4 ⟨.on_chain, -1⟩) = 1/2 ∧
    trendSignal (1/2) = .uptrend := by
  have hlen : 0 < (((i0 :: rest).length : ℚ)) := by
    exact_mod_cast List.length_pos.mpr (List.cons_ne_nil i0 rest)
  have hratio : trendRatio (i0 :: rest) =
      (compositeScore (i0 :: rest) : ℚ) / ((i0 :: rest).length : ℚ) := by
    unfold trendRatio
    rw [if_pos (List.length_pos.mpr (List.cons_ne_nil i0 rest))]
  have hsb := score_sum_bounds ((i0 :: rest).map fun i => i.score)
    (fun s hs => by
      rcases List.mem_map.mp hs with ⟨i, hi, hie⟩
      rw [← hie]; exact hscores i hi)
  have hlenmap : (((i0 :: rest).map fun i => i.score).length : ℤ) = ((i0 :: rest).length : ℤ) := by
    simp
  refine ⟨hratio, ⟨?_, ?_⟩, (trendSignal_eq_iff _).1, (trendSignal_eq_iff _).2.1,
    (trendSignal_eq_iff _).2.2, trendRatio_scenario_eq, trendSignal_half_uptrend⟩
  · rw [hratio, le_div_iff hlen]
    have h1 : -(((i0 :: rest).length : ℤ)) ≤ compositeScore (i0 :: rest) := by
      have := hsb.1
      rw [hlenmap] at this
      exact this
    have h2 : (-(((i0 :: rest).length : ℤ)) : ℚ) ≤ (compositeScore (i0 :: rest) : ℚ) := by
      exact_mod_cast h1
    push_cast at h2 ⊢
    linarith
  · rw [hratio, div_le_iff hlen]
    have h1 : compositeScore (i0 :: rest) ≤ ((i0 :: rest).length : ℤ) := by
      have := hsb.2
      rw [hlenmap] at this
      exact this
    have h2 : (compositeScore (i0 :: rest) : ℚ) ≤ (((i0 :: rest).length : ℤ) : ℚ) := by
      exact_mod_cast h1
    push_cast at h2 ⊢
    linarith

/-- Witness for C5: a singleton trend indicator scored +1 satisfies the
score-range hypothesis, and the ratio bound follows by the theorem. -/
theorem C5_trend_ratio_and_tier_witness :
    -1 ≤ trendRatio [⟨.technical_btc, 1⟩] :=
  (C5_trend_ratio_and_tier ⟨.technical_btc, 1⟩ [] (by decide)).2.1.1

/-- C6 counterexample: on the empty indicator set both composites return
the numeric score 0 instead of failing with an error. -/
theorem C6_counterexample :
    compositeZScore [] = 0 ∧ trendRatio [] = 0 := by
  constructor <;> rfl

/-- C6 amended: when the indicator set is empty, the valuation composite
and the trend composite both return the numeric score 0; no error value
is produced. -/
theorem C6_empty_composites_return_zero :
    compositeZScore [] = 0 ∧ trendRatio [] = 0 := by
  refine ⟨?_, ?_⟩ <;> rfl

theorem directionChanges_eq_countP (pts : List ISPPoint) :
    directionChanges pts =
      (pts.zip pts.tail).countP fun q => decide (q.1.direction ≠ q.2.direction) := by
  induction pts with
  | nil => rfl
  | cons a t ih =>
    cases t with
    | nil => rfl
    | cons b rest =>
      simp only [directionChanges, List.tail_cons, List.zip_cons_cons,
        List.countP_cons] at ih ⊢
      rw [ih]
      by_cases hd : a.direction = b.direction <;> simp [hd] <;> omega

/-- C7: the ISP trade count equals the number of adjacent point pairs with
differing direction, is 0 on lists with fewer than two points, and the
four-point sequence long, long, short, long yields exactly 2 trades. -/
theorem C7_isp_trade_count (pts : List ISPPoint) :
    ispTradeCount pts =
      (pts.zip pts.tail).countP (fun q => decide (q.1.direction ≠ q.2.direction)) ∧
    ispTradeCount [] = 0 ∧ (∀ p : ISPPoint, ispTradeCount [p] = 0) ∧
    ispTradeCount [⟨1, .long⟩, ⟨2, .long⟩, ⟨3, .short⟩, ⟨4, .long⟩] = 2 := by
  refine ⟨?_, rfl, fun p => rfl, by decide⟩
  unfold ispTradeCount
  split_ifs with h
  · cases pts with
    | nil => rfl
    | cons a t =>
      cases t with
      | nil => rfl
      | cons b r =>
        simp only [List.length_cons] at h
        exact absurd h (by omega)
  · exact directionChanges_eq_countP pts

instance : IsTotal ISPPoint fun a b => a.date ≤ b.date :=
  ⟨fun a b => Nat.le_total a.date b.date⟩

instance : IsTrans ISPPoint fun a b => a.date ≤ b.date :=
  ⟨fun _ _ _ => Nat.le_trans⟩

/-- C8: a chart-click insertion keeps ISP dates pairwise distinct and
sorted ascending; a point at an already-present date is replaced by the
new one; other points survive; and the invariant holds of the empty
initial list, so it is preserved from the start. -/
theorem C8_chart_click_invariant (prev : List ISPPoint) (date : ℕ) (dir : Direction)
    (hprev : SortedByDate prev) :
    SortedByDate (handleChartClick prev date dir) ∧
    (⟨date, dir⟩ : ISPPoint) ∈ handleChartClick prev date dir ∧
    (∀ p ∈ handleChartClick prev date dir, p.date = date → p = (⟨date, dir⟩ : ISPPoint)) ∧
    (∀ p ∈ prev, p.date ≠ date → p ∈ handleChartClick prev date dir) ∧
    SortedByDate ([] : List ISPPoint) := by
  have hperm : List.Perm (handleChartClick prev date dir)
      ((prev.filter fun p => decide (p.date ≠ date)) ++ [⟨date, dir⟩]) :=
    List.perm_insertionSort _ _
  have hfmem : ∀ p ∈ prev.filter fun p => decide (p.date ≠ date), p.date ≠ date := by
    intro p hp
    have := List.of_mem_filter hp
    simpa using this
  have hfsorted : SortedByDate (prev.filter fun p => decide (p.date ≠ date)) :=
    List.Pairwise.filter _ hprev
  have hne : ((prev.filter fun p => decide (p.date ≠ date)) ++
      [(⟨date, dir⟩ : ISPPoint)]).Pairwise fun a b => a.date ≠ b.date := by
    rw [List.pairwise_append]
    refine ⟨hfsorted.imp (fun h => Nat.ne_of_lt h), List.pairwise_singleton _ _, ?_⟩
    intro a ha b hb
    have hb2 : b = (⟨date, dir⟩ : ISPPoint) := by simpa using hb
    rw [hb2]
    exact hfmem a ha
  have hne2 : (handleChartClick prev date dir).Pairwise fun a b => a.date ≠ b.date :=
    ((hperm.pairwise_iff fun h => Ne.symm h).mpr) hne
  have hsorted : (handleChartClick prev date dir).Pairwise fun a b => a.date ≤ b.date :=
    List.sorted_insertionSort _ _
  refine ⟨?_, ?_, ?_, ?_, List.Pairwise.nil⟩
  · exact (hsorted.and hne2).imp fun h => Nat.lt_of_le_of_ne h.1 h.2
  · rw [hperm.mem_iff]
    exact List.mem_append_right _ (List.mem_singleton_self _)
  · intro p hp hdate
    rw [hperm.mem_iff] at hp
    rcases List.mem_append.mp hp with h | h
    · exact absurd hdate (hfmem p h)
    · simpa using h
  · intro p hp hpd
    rw [hperm.mem_iff]
    refine List.mem_append_left _ ?_
    exact List.mem_filter.mpr ⟨hp, by simpa using hpd⟩

/-- Witness for C8: inserting into the empty sorted list puts the new
point into the resulting list. -/
theorem C8_chart_click_invariant_witness :
    (⟨5, .long⟩ : ISPPoint) ∈ handleChartClick [] 5 .long :=
  (C8_chart_click_invariant [] 5 .long List.Pairwise.nil).2.1

/-- C9 counterexample: with an empty error list and an empty indicator
list the valuation builder's validity flag is false, so validity is not
equivalent to the error count being zero. -/
theorem C9_counterexample :
    ([] : List ValidationIssue).length = 0 ∧
    valuationIsValid [] [] = false := ⟨rfl, rfl⟩

/-- C9 amended: the valuation builder's validity flag is true exactly when
the error list is empty and at least 15 indicators are present; the trend
builder's flag is true exactly when the error list is empty, exactly 12
technical_btc indicators are present, and at least 4 on_chain indicators
are present. -/
theorem C9_is_valid_characterization (errors : List ValidationIssue)
    (vinds : List ValIndicator) (tinds : List TrendIndicator) :
    (valuationIsValid errors vinds = true ↔
      errors.length = 0 ∧ vinds.length ≥ 15) ∧
    (trendIsValid errors tinds = true ↔
      errors.length = 0 ∧
      (tinds.filter fun i => decide (i.category = TrendCategory.technical_btc)).length = 12 ∧
      (tinds.filter fun i => decide (i.category = TrendCategory.on_chain)).length ≥ 4) := by
  unfold valuationIsValid trendIsValid
  constructor
  · simp
  · simp [and_assoc]

/-- C10: every subscription whose stored tier is 0 is active at every
timestamp, regardless of paidUntil; and a successful cancel sets the
tier to 0 without changing paidUntil, after which getUserTier reads 0
and isActive is true at every timestamp — in particular while the
timestamp is at most paidUntil. -/
theorem C10_cancel_explorer_always_active (sub sub2 : Subscription) (ts : ℕ)
    (hc : cancel sub = some sub2) :
    (∀ s : Subscription, ∀ t : ℕ, s.tier = 0 → isActive s t = true) ∧
    sub2.tier = 0 ∧ sub2.paidUntil = sub.paidUntil ∧
    getUserTier sub2 ts = 0 ∧
    (∀ t : ℕ, isActive sub2 t = true) := by
  unfold cancel at hc
  split_ifs at hc with h
  injection hc with hc2
  subst hc2
  refine ⟨fun s t h0 => by simp [isActive, h0], rfl, rfl, by simp [getUserTier], ?_⟩
  intro t
  simp [isActive]

/-- Witness for C10: cancelling an active tier-1 subscription leaves a
tier-0 record whose getUserTier reads 0. -/
theorem C10_cancel_explorer_always_active_witness :
    getUserTier ⟨0, 100, 0⟩ 50 = 0 :=
  (C10_cancel_explorer_always_active ⟨1, 100, 0⟩ ⟨0, 100, 0⟩ 50 rfl).2.2.2.1

end StrategyBuilder
